import Mathlib

/-!
# Verification of the toast / themed-sidebar core

Shallow embedding of the repository's two components:

* `Toast` — the transient-notification component.  Only its test file
  (`src/frontend/src/lib/components/elements/Toast/Toast.test.tsx`) is under
  `src/`; the component itself is modelled from the spec (§3, §4.1):
  a pure render function of the props, the measured line layout of the
  content, and the local `expanded` state, together with the dismiss
  transition on the view state.
* `ThemedSidebar` / `createSidebarTheme`
  (`src/frontend/app/src/app/components/Sidebar/ThemedSidebar.tsx`) — the
  theme-derivation wrapper.  `createTheme` (imported from `src/lib/theme`,
  not under `src/`) is modelled from the spec (§3 ThemeOverride, §4.2).
-/

/-! ## Theme model -/

/-- The emotion colour/style tokens of a theme that the excerpt touches:
the two swapped colour tokens (`bgColor`, `secondaryBg`, accessed in
`ThemedSidebar.tsx` as `theme.emotion.colors.bgColor` /
`theme.emotion.colors.secondaryBg`) plus representative further tokens
(fonts, spacing, radii, other colours) that the derivation must leave
unchanged. -/
structure EmotionTheme where
  bgColor : String
  secondaryBg : String
  textColor : String
  font : String
  spacing : String
  radii : String
  deriving Repr, DecidableEq

/-- A resolved theme configuration (`ThemeConfig` of `src/lib/theme`): a
name, the emotion token set, and the positional flag consumed by layout
logic (`inSidebar`). -/
structure ThemeConfig where
  name : String
  emotion : EmotionTheme
  inSidebar : Bool
  deriving Repr, DecidableEq

/-- The two colour-token overrides passed to `createTheme`
(`secondaryBackgroundColor`, `backgroundColor`); `none` means the token is
inherited from the parent. -/
structure ThemeOverrides where
  secondaryBackgroundColor : Option String
  backgroundColor : Option String
  deriving Repr, DecidableEq

/-- Modelled from the spec: `createTheme` of `src/lib/theme` is not under
`src/`.  Per §3 (ThemeOverride) and §4.2, it returns a new theme named by
the given region whose colour tokens apply exactly the given overrides,
with all other tokens inherited unchanged from the parent, tagged with the
positional flag; the parent value is not mutated (the function is pure). -/
def createTheme (name : String) (overrides : ThemeOverrides)
    (parent : ThemeConfig) (inSidebar : Bool) : ThemeConfig :=
  { name := name
    emotion :=
      { parent.emotion with
        bgColor := overrides.backgroundColor.getD parent.emotion.bgColor
        secondaryBg :=
          overrides.secondaryBackgroundColor.getD parent.emotion.secondaryBg }
    inSidebar := inSidebar }

/-- `createSidebarTheme` from `ThemedSidebar.tsx` (lines 23–33): derive the
sidebar theme from the ambient theme by swapping the background and
secondary-background tokens, under the fixed region name `"Sidebar"` and
with the `inSidebar` flag set. -/
def createSidebarTheme (theme : ThemeConfig) : ThemeConfig :=
  createTheme "Sidebar"
    { secondaryBackgroundColor := some theme.emotion.bgColor
      backgroundColor := some theme.emotion.secondaryBg }
    theme
    true

/-! ## ThemedSidebar wrapper -/

/-- The ambient `AppContext` fields read by `ThemedSidebar`
(`activeTheme` and `sidebarChevronDownshift`). -/
structure AppContext where
  activeTheme : ThemeConfig
  sidebarChevronDownshift : Nat
  deriving Repr, DecidableEq

/-- The props `ThemedSidebar` accepts:
`Omit<SidebarProps, "chevronDownshift" | "theme">`, i.e. the children plus
the remaining sidebar props (modelled opaquely as a keyed list); the type
statically excludes `chevronDownshift` and `theme`. -/
structure ThemedSidebarProps where
  children : String
  rest : List (String × String)
  deriving Repr, DecidableEq

/-- The element tree `ThemedSidebar` returns: a `ThemeProvider` carrying the
derived theme's emotion tokens, wrapping a `Sidebar` that receives the
spread remaining props, the context's chevron downshift, and the children. -/
structure RenderedThemedSidebar where
  providerTheme : EmotionTheme
  sidebarRestProps : List (String × String)
  chevronDownshift : Nat
  children : String
  deriving Repr, DecidableEq

/-- `ThemedSidebar` from `ThemedSidebar.tsx` (lines 35–53): read
`activeTheme` and `sidebarChevronDownshift` from the ambient context,
derive the sidebar theme, and render the provider-wrapped `Sidebar`. -/
def ThemedSidebar (ctx : AppContext) (props : ThemedSidebarProps) :
    RenderedThemedSidebar :=
  let sidebarTheme := createSidebarTheme ctx.activeTheme
  { providerTheme := sidebarTheme.emotion
    sidebarRestProps := props.rest
    chevronDownshift := ctx.sidebarChevronDownshift
    children := props.children }

/-! ## Toast model (modelled from the spec: `Toast.tsx` is not under `src/`,
only `Toast.test.tsx` is) -/

/-- The props of a toast (§3 ToastMessage, §4.1 Inputs): the message text,
an optional icon glyph (may be the empty string), and the severity string
(`""`, `"success"`, `"warning"`, `"error"`; unknown values fall back to
default styling and never affect truncation). -/
structure ToastProps where
  text : String
  icon : String
  type : String
  deriving Repr, DecidableEq

/-- Modelled from the spec (§4.1): the icon is prefixed to the text with a
single separating space only when `icon` is non-empty; an empty icon yields
no leading space or placeholder glyph. -/
def toastFullText (p : ToastProps) : String :=
  if p.icon = "" then p.text else p.icon ++ " " ++ p.text

/-- The measured layout of the rendered message block: the list of line
boxes the full content wraps into.  The height comparison of §4.1 (actual
height vs. the 3-line budget at fixed line height) is equivalent to
comparing the number of rendered lines against 3. -/
structure Layout where
  lines : List String
  deriving Repr, DecidableEq

/-- Concatenation of rendered line boxes back into displayed text content. -/
def concatLines : List String → String
  | [] => ""
  | s :: rest => s ++ concatLines rest

/-- A layout is a faithful measurement of a toast when its line boxes
concatenate to exactly the full rendered text and every line box is
non-empty. -/
def layoutMeasures (p : ToastProps) (l : Layout) : Prop :=
  concatLines l.lines = toastFullText p ∧ ∀ s ∈ l.lines, 0 < s.length

/-- The fixed line budget of the truncation clamp (3 lines, §4.1). -/
def lineBudget : Nat := 3

/-- Modelled from the spec (§3 ToastViewState): `isOverflowing` is derived
from the measured content height against the fixed 3-line budget — the
content overflows exactly when it occupies more than `lineBudget` lines. -/
def isOverflowing (l : Layout) : Bool :=
  lineBudget < l.lines.length

/-- The initial expand state: a toast mounts collapsed (§3: `expanded`
initial `false`). -/
def initialExpanded : Bool := false

/-- A toggle click flips the `expanded` state (§4.1). -/
def toggleClick (expanded : Bool) : Bool := !expanded

/-- The accessible presentation of a mounted toast: the root role, the
text content shown, the accessible name of the expand/collapse toggle
(`none` when no toggle is rendered), and the dismiss control's name. -/
structure RenderedToast where
  role : String
  textContent : String
  toggleName : Option String
  closeName : String
  deriving Repr, DecidableEq

/-- Modelled from the spec (§4.1 Behavior): render a toast from its props,
its measured layout and the current `expanded` state.  When the content
overflows and the toast is collapsed, the text is clamped to the first
`lineBudget` lines; otherwise the full text is shown.  The toggle is
rendered only when overflowing, labelled `"view more"` when collapsed and
`"view less"` when expanded; the dismiss control is named `"Close"` and the
root exposes the `"alert"` role. -/
def renderToast (p : ToastProps) (l : Layout) (expanded : Bool) :
    RenderedToast :=
  { role := "alert"
    textContent :=
      if isOverflowing l && !expanded then
        concatLines (l.lines.take lineBudget)
      else
        toastFullText p
    toggleName :=
      if isOverflowing l then
        some (if expanded then "view less" else "view more")
      else
        none
    closeName := "Close" }

/-- The component-local view state (§3 ToastViewState): the expand flag and
the visibility flag that becomes `false` on dismiss. -/
structure ToastViewState where
  expanded : Bool
  visible : Bool
  deriving Repr, DecidableEq

/-- Modelled from the spec (§5, §7): the dismiss action clears visibility;
it is total and never raises, so invoking it again after the component is
gone is a harmless no-op. -/
def dismissToast (vs : ToastViewState) : ToastViewState :=
  { vs with visible := false }

/-- The accessible tree for a toast in a given view state: `none` once the
component has been dismissed and unmounted, otherwise the rendered toast. -/
def renderToastState (p : ToastProps) (l : Layout) (vs : ToastViewState) :
    Option RenderedToast :=
  if vs.visible then some (renderToast p l vs.expanded) else none

/-! ## Auxiliary lemmas -/

theorem concatLines_append (xs ys : List String) :
    concatLines (xs ++ ys) = concatLines xs ++ concatLines ys := by
  induction xs with
  | nil => simp [concatLines]
  | cons s rest ih => simp [concatLines, ih, String.append_assoc]

theorem concatLines_length_pos (xs : List String)
    (hne : xs ≠ []) (hpos : ∀ s ∈ xs, 0 < s.length) :
    0 < (concatLines xs).length := by
  cases xs with
  | nil => exact absurd rfl hne
  | cons s rest =>
    have hs : 0 < s.length := hpos s (List.mem_cons_self s rest)
    simp only [concatLines, String.length_append]
    omega

theorem take_ne_of_overflow (l : Layout) (hov : isOverflowing l = true) :
    l.lines.drop lineBudget ≠ [] := by
  have hlen : lineBudget < l.lines.length := by
    simpa [isOverflowing, decide_eq_true_eq] using hov
  intro hdrop
  have := List.drop_eq_nil_iff.mp hdrop
  omega

/-! ## Theme claims -/

/-- C4: for every parent theme, `createSidebarTheme` returns a theme whose
`backgroundColor` equals the parent's secondary-background token and whose
`secondaryBackgroundColor` equals the parent's background token, with all
other tokens inherited unchanged from the parent; being a pure function of
the parent value, the derivation never mutates the parent. -/
theorem createSidebarTheme_swaps (t : ThemeConfig) :
    (createSidebarTheme t).emotion.bgColor = t.emotion.secondaryBg ∧
    (createSidebarTheme t).emotion.secondaryBg = t.emotion.bgColor ∧
    (createSidebarTheme t).emotion.textColor = t.emotion.textColor ∧
    (createSidebarTheme t).emotion.font = t.emotion.font ∧
    (createSidebarTheme t).emotion.spacing = t.emotion.spacing ∧
    (createSidebarTheme t).emotion.radii = t.emotion.radii := by
  refine ⟨rfl, rfl, rfl, rfl, rfl, rfl⟩

/-- C7: the background/secondary-background swap derivation is self-inverse
on the swapped pair — applying it twice yields a theme whose two swapped
token values equal the original parent's values. -/
theorem createSidebarTheme_involutive_on_pair (t : ThemeConfig) :
    (createSidebarTheme (createSidebarTheme t)).emotion.bgColor
      = t.emotion.bgColor ∧
    (createSidebarTheme (createSidebarTheme t)).emotion.secondaryBg
      = t.emotion.secondaryBg := by
  exact ⟨rfl, rfl⟩

/-- C8: `createSidebarTheme` is deterministic and side-effect free — it is
a pure function of the parent theme value, so any two invocations on equal
parent themes produce equal derived themes, and no state outside the
returned value exists to be changed. -/
theorem createSidebarTheme_deterministic (t₁ t₂ : ThemeConfig)
    (h : t₁ = t₂) : createSidebarTheme t₁ = createSidebarTheme t₂ := by
  rw [h]

/-- Witness for C8 at a concrete theme. -/
theorem createSidebarTheme_deterministic_witness :
    createSidebarTheme
        { name := "Light", inSidebar := false,
          emotion := { bgColor := "#fff", secondaryBg := "#f0f2f6",
                       textColor := "#31333F", font := "sans",
                       spacing := "1rem", radii := "0.5rem" } }
      = createSidebarTheme
        { name := "Light", inSidebar := false,
          emotion := { bgColor := "#fff", secondaryBg := "#f0f2f6",
                       textColor := "#31333F", font := "sans",
                       spacing := "1rem", radii := "0.5rem" } } :=
  createSidebarTheme_deterministic _ _ rfl

/-- C9: the derived sidebar theme always carries the fixed region name
`"Sidebar"` and the positional flag `inSidebar = true`, independent of the
parent theme's contents. -/
theorem createSidebarTheme_name_and_flag (t t' : ThemeConfig) :
    (createSidebarTheme t).name = "Sidebar" ∧
    (createSidebarTheme t).inSidebar = true ∧
    (createSidebarTheme t).name = (createSidebarTheme t').name ∧
    (createSidebarTheme t).inSidebar = (createSidebarTheme t').inSidebar := by
  exact ⟨rfl, rfl, rfl, rfl⟩

/-- C10: `ThemedSidebar` forwards the `sidebarChevronDownshift` value read
from the ambient context to the inner `Sidebar` as its `chevronDownshift`
prop unchanged, and passes all of its remaining props (its prop type
statically excludes `chevronDownshift` and `theme`) through to `Sidebar`
unmodified. -/
theorem ThemedSidebar_forwards_props (ctx : AppContext)
    (props : ThemedSidebarProps) :
    (ThemedSidebar ctx props).chevronDownshift = ctx.sidebarChevronDownshift ∧
    (ThemedSidebar ctx props).sidebarRestProps = props.rest ∧
    (ThemedSidebar ctx props).children = props.children := by
  exact ⟨rfl, rfl, rfl⟩

/-! ## Toast claims -/

theorem toastFullText_split (p : ToastProps) (l : Layout)
    (hm : concatLines l.lines = toastFullText p) :
    toastFullText p
      = concatLines (l.lines.take lineBudget)
        ++ concatLines (l.lines.drop lineBudget) := by
  rw [← concatLines_append, List.take_append_drop]
  exact hm.symm

/-- C1: the expand/collapse toggle is present in the accessible tree iff the
measured content overflows the 3-line budget; when the text fits, no toggle
is rendered and the full text is visible, regardless of `expanded`, `icon`
or severity. -/
theorem toast_toggle_iff_overflowing (p : ToastProps) (l : Layout)
    (e : Bool) :
    ((renderToast p l e).toggleName.isSome = true ↔ isOverflowing l = true) ∧
    (isOverflowing l = false →
      (renderToast p l e).toggleName = none ∧
      (renderToast p l e).textContent = toastFullText p) := by
  cases hov : isOverflowing l <;> simp [renderToast, hov]

/-- Witness for C1 at a concrete short toast. -/
theorem toast_toggle_iff_overflowing_witness :
    ((renderToast ⟨"hi", "d", ""⟩ ⟨["d hi"]⟩ false).toggleName.isSome = true
        ↔ isOverflowing ⟨["d hi"]⟩ = true) ∧
    (isOverflowing (⟨["d hi"]⟩ : Layout) = false →
      (renderToast ⟨"hi", "d", ""⟩ ⟨["d hi"]⟩ false).toggleName = none ∧
      (renderToast ⟨"hi", "d", ""⟩ ⟨["d hi"]⟩ false).textContent
        = toastFullText ⟨"hi", "d", ""⟩) :=
  toast_toggle_iff_overflowing ⟨"hi", "d", ""⟩ ⟨["d hi"]⟩ false

/-- C2: an overflowing toast mounts collapsed with a toggle named
`"view more"`, its clamped text is a strict prefix of the full text, and
after one toggle click the toggle is named `"view less"`. -/
theorem toast_overflow_initial (p : ToastProps) (l : Layout)
    (hm : layoutMeasures p l) (hov : isOverflowing l = true) :
    (renderToast p l initialExpanded).toggleName = some "view more" ∧
    (∃ s, toastFullText p
        = (renderToast p l initialExpanded).textContent ++ s ∧
        0 < s.length) ∧
    (renderToast p l (toggleClick initialExpanded)).toggleName
      = some "view less" := by
  refine ⟨by simp [renderToast, hov, initialExpanded], ?_, ?_⟩
  · refine ⟨concatLines (l.lines.drop lineBudget), ?_, ?_⟩
    · have hsplit := toastFullText_split p l hm.1
      have hcontent : (renderToast p l initialExpanded).textContent
          = concatLines (l.lines.take lineBudget) := by
        simp [renderToast, hov, initialExpanded]
      rw [hcontent]
      exact hsplit
    · exact concatLines_length_pos _ (take_ne_of_overflow l hov)
        (fun s hs => hm.2 s (List.drop_subset _ _ hs))
  · simp [renderToast, hov, initialExpanded, toggleClick]

/-- Witness for C2 at a concrete four-line toast. -/
theorem toast_overflow_initial_witness :
    (renderToast ⟨"abcd", "", ""⟩ ⟨["a", "b", "c", "d"]⟩
        initialExpanded).toggleName = some "view more" ∧
    (∃ s, toastFullText ⟨"abcd", "", ""⟩
        = (renderToast ⟨"abcd", "", ""⟩ ⟨["a", "b", "c", "d"]⟩
            initialExpanded).textContent ++ s ∧
        0 < s.length) ∧
    (renderToast ⟨"abcd", "", ""⟩ ⟨["a", "b", "c", "d"]⟩
        (toggleClick initialExpanded)).toggleName = some "view less" :=
  toast_overflow_initial ⟨"abcd", "", ""⟩ ⟨["a", "b", "c", "d"]⟩
    (by constructor <;> decide) (by decide)

/-- C3: toggling is an involution on the rendered presentation — starting
collapsed, clicking the toggle twice returns exactly the original clamped
rendering with the `"view more"` toggle restored. -/
theorem toast_toggle_involution (p : ToastProps) (l : Layout)
    (hov : isOverflowing l = true) :
    renderToast p l (toggleClick (toggleClick initialExpanded))
      = renderToast p l initialExpanded ∧
    (renderToast p l (toggleClick (toggleClick initialExpanded))).toggleName
      = some "view more" := by
  constructor
  · rfl
  · simp [renderToast, hov, initialExpanded, toggleClick]

/-- Witness for C3 at a concrete four-line toast. -/
theorem toast_toggle_involution_witness :
    renderToast ⟨"abcd", "", ""⟩ ⟨["a", "b", "c", "d"]⟩
        (toggleClick (toggleClick initialExpanded))
      = renderToast ⟨"abcd", "", ""⟩ ⟨["a", "b", "c", "d"]⟩
        initialExpanded ∧
    (renderToast ⟨"abcd", "", ""⟩ ⟨["a", "b", "c", "d"]⟩
        (toggleClick (toggleClick initialExpanded))).toggleName
      = some "view more" :=
  toast_toggle_involution ⟨"abcd", "", ""⟩ ⟨["a", "b", "c", "d"]⟩ (by decide)

/-- C5: the dismiss control is named `"Close"`; dismissing removes the
alert from the accessible tree, and a second dismiss invocation after the
component has unmounted is a no-op that changes nothing and raises no
error (the transition is a total function). -/
theorem toast_dismiss_idempotent (p : ToastProps) (l : Layout)
    (vs : ToastViewState) :
    (renderToast p l vs.expanded).closeName = "Close" ∧
    renderToastState p l (dismissToast vs) = none ∧
    dismissToast (dismissToast vs) = dismissToast vs := by
  refine ⟨rfl, ?_, rfl⟩
  simp [renderToastState, dismissToast]

/-- C6: the full message is the icon glyph followed by exactly one
separating space and the text when `icon` is non-empty, and exactly the
text (no leading space or placeholder glyph) when `icon` is empty; the
rendered alert text content equals this full message whenever the content
fits the budget, and is always a prefix of it. -/
theorem toast_icon_prefixing (p : ToastProps) (l : Layout) (e : Bool)
    (hm : layoutMeasures p l) :
    (p.icon ≠ "" → toastFullText p = p.icon ++ " " ++ p.text) ∧
    (p.icon = "" → toastFullText p = p.text) ∧
    (isOverflowing l = false →
      (renderToast p l e).textContent = toastFullText p) ∧
    (∃ s, toastFullText p = (renderToast p l e).textContent ++ s) := by
  refine ⟨fun h => by simp [toastFullText, h], fun h => by simp [toastFullText, h],
    fun hov => by simp [renderToast, hov], ?_⟩
  cases hov : isOverflowing l with
  | false => exact ⟨"", by simp [renderToast, hov]⟩
  | true =>
    cases e with
    | true => exact ⟨"", by simp [renderToast, hov]⟩
    | false =>
      refine ⟨concatLines (l.lines.drop lineBudget), ?_⟩
      have hcontent : (renderToast p l false).textContent
          = concatLines (l.lines.take lineBudget) := by
        simp [renderToast, hov]
      rw [hcontent]
      exact toastFullText_split p l hm.1

/-- Witness for C6 at a concrete short toast with an icon. -/
theorem toast_icon_prefixing_witness :
    ((⟨"hi", "d", ""⟩ : ToastProps).icon ≠ "" →
      toastFullText ⟨"hi", "d", ""⟩
        = (⟨"hi", "d", ""⟩ : ToastProps).icon ++ " "
          ++ (⟨"hi", "d", ""⟩ : ToastProps).text) ∧
    ((⟨"hi", "d", ""⟩ : ToastProps).icon = "" →
      toastFullText ⟨"hi", "d", ""⟩ = (⟨"hi", "d", ""⟩ : ToastProps).text) ∧
    (isOverflowing (⟨["d hi"]⟩ : Layout) = false →
      (renderToast ⟨"hi", "d", ""⟩ ⟨["d hi"]⟩ false).textContent
        = toastFullText ⟨"hi", "d", ""⟩) ∧
    (∃ s, toastFullText ⟨"hi", "d", ""⟩
        = (renderToast ⟨"hi", "d", ""⟩ ⟨["d hi"]⟩ false).textContent ++ s) :=
  toast_icon_prefixing ⟨"hi", "d", ""⟩ ⟨["d hi"]⟩ false
    (by constructor <;> decide)
